import Mathlib

/-!
Shallow embedding of `src/handler.py`: a serverless image CRUD facade with
four handlers (`upload_image`, `list_images`, `get_image`, `delete_image`)
over an object store (S3) and a metadata table (DynamoDB).

Modelling conventions:
* Python/JSON values are embedded as `PyVal` (number literals are modelled as
  integers; the claims under study never exercise float bodies).
* An inbound event follows the invocation shape of the spec: `httpMethod`
  (string or absent), `body` (string or absent), `queryStringParameters`
  (string-to-string mapping or absent).
* Store calls can raise.  Exceptions are split the way the handlers split
  them: `botocore` `ClientError` versus everything else.  Handlers are
  parametric in a `StoreOps` record so that arbitrary store failures can be
  injected; `realStore` is the faithful key-value instantiation.
* `datetime.now().date()` and `uuid.uuid4()` are effects; the handler
  receives the clock (with both the local and the UTC calendar date, since
  `datetime.now()` is local time) and the generated id as parameters.
* `json.loads`, `json.dumps`, `base64.b64decode` and `base64.b64encode` are
  Python standard library calls; they are modelled executably below
  (`json_loads`, `pyDumps`, `pyB64Decode`, `b64Encode`).  The base64 decoder
  follows CPython's lenient `binascii` semantics exactly (non-strict mode):
  characters outside the alphabet are skipped, a padding character ends the
  input once `quad_pos + pads >= 4` (so a quad position of two needs two
  pads, and the pad counter resets on every data character), and leftover
  quad state at the end raises `Incorrect padding`.  The JSON parser covers
  CPython's accepted grammar: objects, arrays, strings with all escapes
  including `\uXXXX` and surrogate pairs, integers, fraction/exponent
  numbers (kept as exact decimal literals), and the `NaN` / `Infinity` /
  `-Infinity` extensions.  Two acknowledged abstractions: CPython's
  recursion limit on deeply nested documents is not modelled, and a lone
  surrogate escape (legal to CPython, unrepresentable in a Lean `Char`)
  parses to U+FFFD.
-/

/-- A Python float as produced by the JSON parser: the exact decimal
literal `m * 10^e`, or an infinity, or a NaN.  No float arithmetic occurs
in the program; the only behaviour that matters is truthiness, which is
modelled exactly (see `pyFloatTruthy`). -/
inductive PyFloat where
  | finite (m : Int) (e : Int)
  | inf (neg : Bool)
  | nan

/-- Python truthiness of a parsed float: `float(lit)` is falsy exactly when
the literal rounds to zero, i.e. when `|m| * 10^e <= 2^-1075` (half the
smallest subnormal; CPython's `strtod` is correctly rounded and ties go to
the even value 0).  `NaN` and the infinities are truthy. -/
def pyFloatTruthy : PyFloat → Bool
  | .finite m e =>
    if 0 ≤ e then m != 0
    else decide (10 ^ (-e).toNat < m.natAbs * 2 ^ 1075)
  | .inf _ => true
  | .nan => true

/-- Embedded Python/JSON value (floats are out of scope; numbers are ints). -/
inductive PyVal where
  | null
  | bool (b : Bool)
  | int (n : Int)
  | float (f : PyFloat)
  | str (s : String)
  | arr (elems : List PyVal)
  | obj (fields : List (String × PyVal))

/-- Python truthiness (`if not x`) for the embedded values. -/
def pyTruthy : PyVal → Bool
  | .null => false
  | .bool b => b
  | .int n => n != 0
  | .float f => pyFloatTruthy f
  | .str s => s != ""
  | .arr xs => !xs.isEmpty
  | .obj fs => !fs.isEmpty

/-- Python type name, used in `AttributeError` messages. -/
def pyTypeName : PyVal → String
  | .null => "NoneType"
  | .bool _ => "bool"
  | .int _ => "int"
  | .float _ => "float"
  | .str _ => "str"
  | .arr _ => "list"
  | .obj _ => "dict"

/-- Exceptions, split the way `handler.py` splits them: `botocore`
`ClientError` versus any other `Exception`. -/
inductive Exc where
  | clientError (m : String)
  | otherError (m : String)

/-- `str(e)`: the message carried by the exception. -/
def Exc.msg : Exc → String
  | .clientError m => m
  | .otherError m => m

/-- `body.get(k)`: returns `None` (`PyVal.null`) when the key is absent and
raises `AttributeError` when the receiver is not a dict.  `json.loads` keeps
the last duplicate key, hence the reverse lookup. -/
def pyDictGet (v : PyVal) (k : String) : Except Exc PyVal :=
  match v with
  | .obj fs => .ok ((fs.reverse.lookup k).getD .null)
  | _ => .error (.otherError
      ("AttributeError: \x27" ++ pyTypeName v ++ "\x27 object has no attribute \x27get\x27"))

/-- `body.get(k, default)` with an explicit default. -/
def pyDictGetD (v : PyVal) (k : String) (d : PyVal) : Except Exc PyVal :=
  match v with
  | .obj fs => .ok ((fs.reverse.lookup k).getD d)
  | _ => .error (.otherError
      ("AttributeError: \x27" ++ pyTypeName v ++ "\x27 object has no attribute \x27get\x27"))

/-! ### `json.dumps` (serializer used by the `response` helper) -/

/-- Lowercase hexadecimal digit. -/
def hexDigit (n : Nat) : Char :=
  if n < 10 then Char.ofNat (48 + n) else Char.ofNat (87 + n)

/-- Escape one character the way `json.dumps` (with `ensure_ascii`) does. -/
def escChar (c : Char) : String :=
  if c = '"' then "\\\""
  else if c = '\\' then "\\\\"
  else if c = '\n' then "\\n"
  else if c = '\t' then "\\t"
  else if c = '\r' then "\\r"
  else if c.toNat = 8 then "\\b"
  else if c.toNat = 12 then "\\f"
  else if c.toNat < 32 || 127 ≤ c.toNat then
    "\\u" ++ String.mk [hexDigit (c.toNat / 4096 % 16), hexDigit (c.toNat / 256 % 16),
      hexDigit (c.toNat / 16 % 16), hexDigit (c.toNat % 16)]
  else String.mk [c]

/-- Escape a string for JSON output. -/
def jsonEscape (s : String) : String :=
  s.data.foldl (fun acc c => acc ++ escChar c) ""

/-- Render a float for `json.dumps`: the decimal literal `m`e`e` (a valid
JSON number), or the CPython extension spellings.  This stands in for
Python's shortest-round-trip `repr`; no theorem forces its value at a
float. -/
def pyDumpsFloat : PyFloat → String
  | .finite m e => toString m ++ "e" ++ toString e
  | .inf false => "Infinity"
  | .inf true => "-Infinity"
  | .nan => "NaN"

mutual

/-- `json.dumps` with the default separators. -/
def pyDumps : PyVal → String
  | .null => "null"
  | .bool true => "true"
  | .bool false => "false"
  | .int n => toString n
  | .float f => pyDumpsFloat f
  | .str s => "\"" ++ jsonEscape s ++ "\""
  | .arr xs => "[" ++ pyDumpsList xs ++ "]"
  | .obj fs => "\x7b" ++ pyDumpsFields fs ++ "\x7d"

/-- Serialize array elements, separated by `", "`. -/
def pyDumpsList : List PyVal → String
  | [] => ""
  | [x] => pyDumps x
  | x :: y :: xs => pyDumps x ++ ", " ++ pyDumpsList (y :: xs)

/-- Serialize object fields, separated by `", "`, keys and values by `": "`. -/
def pyDumpsFields : List (String × PyVal) → String
  | [] => ""
  | [(k, v)] => "\"" ++ jsonEscape k ++ "\": " ++ pyDumps v
  | (k, v) :: f :: fs =>
    "\"" ++ jsonEscape k ++ "\": " ++ pyDumps v ++ ", " ++ pyDumpsFields (f :: fs)

end

/-! ### `json.loads` (recursive-descent model, fuelled) -/

/-- JSON whitespace. -/
def isJsonWs (c : Char) : Bool :=
  c = ' ' || c = '\t' || c = '\n' || c = '\r'

/-- Skip leading whitespace. -/
def skipWs : List Char → List Char
  | [] => []
  | c :: cs => if isJsonWs c then skipWs cs else c :: cs

/-- Decode one escape character inside a JSON string literal
(`\uXXXX` escapes are outside the modelled subset). -/
def escDecode (e : Char) : Option Char :=
  if e = '"' then some '"'
  else if e = '\\' then some '\\'
  else if e = '/' then some '/'
  else if e = 'b' then some (Char.ofNat 8)
  else if e = 'f' then some (Char.ofNat 12)
  else if e = 'n' then some (Char.ofNat 10)
  else if e = 'r' then some (Char.ofNat 13)
  else if e = 't' then some (Char.ofNat 9)
  else none

/-- Value of one hexadecimal digit. -/
def hexDigitVal (c : Char) : Option Nat :=
  if '0' ≤ c ∧ c ≤ '9' then some (c.toNat - 48)
  else if 'a' ≤ c ∧ c ≤ 'f' then some (c.toNat - 87)
  else if 'A' ≤ c ∧ c ≤ 'F' then some (c.toNat - 55)
  else none

/-- Value of the four hex digits of a `\uXXXX` escape. -/
def hexQuad (a b c d : Char) : Option Nat :=
  match hexDigitVal a, hexDigitVal b, hexDigitVal c, hexDigitVal d with
  | some va, some vb, some vc, some vd => some (va * 4096 + vb * 256 + vc * 16 + vd)
  | _, _, _, _ => none

mutual

/-- Parse the body of a JSON string literal after the opening quote;
returns the contents and the remaining input.  Fuelled (two units per
input character suffice; the callers supply that much).  `\uXXXX` escapes
are decoded, combining a high/low surrogate pair into one code point as
`json.loads` does; an unpaired surrogate (which CPython keeps as a lone
surrogate code unit, a value no Lean `Char` can carry) parses to U+FFFD. -/
def jsonStrChars : Nat → List Char → Option (List Char × List Char)
  | 0, _ => none
  | _ + 1, [] => none
  | _ + 1, '"' :: cs => some ([], cs)
  | fuel + 1, '\\' :: 'u' :: a :: b :: c :: d :: cs =>
    match hexQuad a b c d with
    | none => none
    | some n => jsonStrCharsU fuel n cs
  | fuel + 1, '\\' :: cs =>
    match cs with
    | [] => none
    | e :: cs =>
      match escDecode e with
      | some c => (jsonStrChars fuel cs).map (fun r => (c :: r.1, r.2))
      | none => none
  | fuel + 1, c :: cs =>
    if c.toNat < 32 then none
    else (jsonStrChars fuel cs).map (fun r => (c :: r.1, r.2))

/-- Continue a string literal right after a `\uXXXX` escape of value `n`:
a high surrogate tries to pair with an immediately following low-surrogate
escape; an unpairable or lone surrogate stands for the code unit CPython
keeps (rendered U+FFFD here). -/
def jsonStrCharsU : Nat → Nat → List Char → Option (List Char × List Char)
  | 0, _, _ => none
  | fuel + 1, n, cs =>
    if 0xD800 ≤ n ∧ n < 0xDC00 then
      match cs with
      | '\\' :: 'u' :: a2 :: b2 :: c2 :: d2 :: cs2 =>
        match hexQuad a2 b2 c2 d2 with
        | none => none
        | some n2 =>
          if 0xDC00 ≤ n2 ∧ n2 < 0xE000 then
            (jsonStrChars fuel cs2).map (fun r =>
              (Char.ofNat (0x10000 + (n - 0xD800) * 1024 + (n2 - 0xDC00)) :: r.1, r.2))
          else (jsonStrCharsU fuel n2 cs2).map (fun r => (Char.ofNat 0xFFFD :: r.1, r.2))
      | _ => (jsonStrChars fuel cs).map (fun r => (Char.ofNat 0xFFFD :: r.1, r.2))
    else if 0xDC00 ≤ n ∧ n < 0xE000 then
      (jsonStrChars fuel cs).map (fun r => (Char.ofNat 0xFFFD :: r.1, r.2))
    else
      (jsonStrChars fuel cs).map (fun r => (Char.ofNat n :: r.1, r.2))

end

/-- Consume an expected literal (`null`, `true`, `false` tails). -/
def dropLit : List Char → List Char → Option (List Char)
  | [], cs => some cs
  | l :: ls, c :: cs => if c = l then dropLit ls cs else none
  | _ :: _, [] => none

/-- Digit run value. -/
def digitsToNat (ds : List Char) : Nat :=
  ds.foldl (fun a c => a * 10 + (c.toNat - 48)) 0

/-- Parse a JSON number per RFC 8259: an integer part without leading
zeros, an optional fraction, an optional exponent.  A number with neither
fraction nor exponent is a Python `int`; anything else is a `float`, kept
as the exact decimal literal.  A `.` or `e` not followed by a digit is not
consumed (as with CPython's number regex; the caller then fails on it). -/
def jsonNumTok (cs0 : List Char) : Option (PyVal × List Char) :=
  let (neg, cs1) :=
    match cs0 with
    | '-' :: r => (true, r)
    | _ => (false, cs0)
  match cs1.span Char.isDigit with
  | ([], _) => none
  | (intDs, cs2) =>
    if intDs.length > 1 ∧ intDs.headD '0' = '0' then none
    else
      let (fracDs, cs3) :=
        match cs2 with
        | '.' :: r =>
          match r.span Char.isDigit with
          | ([], _) => (([] : List Char), cs2)
          | (ds, r2) => (ds, r2)
        | _ => ([], cs2)
      let (hasExp, expNeg, expDs, cs4) :=
        match cs3 with
        | 'e' :: '+' :: r =>
          (match r.span Char.isDigit with
           | ([], _) => (false, false, ([] : List Char), cs3)
           | (ds, r2) => (true, false, ds, r2))
        | 'e' :: '-' :: r =>
          (match r.span Char.isDigit with
           | ([], _) => (false, false, ([] : List Char), cs3)
           | (ds, r2) => (true, true, ds, r2))
        | 'e' :: r =>
          (match r.span Char.isDigit with
           | ([], _) => (false, false, ([] : List Char), cs3)
           | (ds, r2) => (true, false, ds, r2))
        | 'E' :: '+' :: r =>
          (match r.span Char.isDigit with
           | ([], _) => (false, false, ([] : List Char), cs3)
           | (ds, r2) => (true, false, ds, r2))
        | 'E' :: '-' :: r =>
          (match r.span Char.isDigit with
           | ([], _) => (false, false, ([] : List Char), cs3)
           | (ds, r2) => (true, true, ds, r2))
        | 'E' :: r =>
          (match r.span Char.isDigit with
           | ([], _) => (false, false, ([] : List Char), cs3)
           | (ds, r2) => (true, false, ds, r2))
        | _ => (false, false, [], cs3)
      if fracDs.isEmpty ∧ ¬hasExp then
        some (.int (if neg then -(digitsToNat intDs : Int) else digitsToNat intDs), cs2)
      else
        let m : Int := digitsToNat (intDs ++ fracDs)
        let ex : Int :=
          (if expNeg then -(digitsToNat expDs : Int) else (digitsToNat expDs : Int))
            - fracDs.length
        some (.float (.finite (if neg then -m else m) ex), cs4)

mutual

/-- Parse one JSON value (fuelled recursion). -/
def jsonValCore : Nat → List Char → Option (PyVal × List Char)
  | 0, _ => none
  | fuel + 1, cs =>
    match skipWs cs with
    | [] => none
    | c :: rest =>
      if c = 'n' then (dropLit ['u', 'l', 'l'] rest).map (fun r => (PyVal.null, r))
      else if c = 't' then (dropLit ['r', 'u', 'e'] rest).map (fun r => (PyVal.bool true, r))
      else if c = 'f' then (dropLit ['a', 'l', 's', 'e'] rest).map (fun r => (PyVal.bool false, r))
      else if c = 'N' then
        (dropLit ['a', 'N'] rest).map (fun r => (PyVal.float .nan, r))
      else if c = 'I' then
        (dropLit ['n', 'f', 'i', 'n', 'i', 't', 'y'] rest).map
          (fun r => (PyVal.float (.inf false), r))
      else if c = '-' then
        match rest with
        | 'I' :: rest2 =>
          (dropLit ['n', 'f', 'i', 'n', 'i', 't', 'y'] rest2).map
            (fun r => (PyVal.float (.inf true), r))
        | _ => jsonNumTok (c :: rest)
      else if c = '"' then
        (jsonStrChars (2 * rest.length + 2) rest).map
          (fun r => (PyVal.str (String.mk r.1), r.2))
      else if c = '[' then
        match skipWs rest with
        | ']' :: r2 => some (PyVal.arr [], r2)
        | r2 => (jsonArrElems fuel r2).map (fun r => (PyVal.arr r.1, r.2))
      else if c = '{' then
        match skipWs rest with
        | '}' :: r2 => some (PyVal.obj [], r2)
        | r2 => (jsonObjFields fuel r2).map (fun r => (PyVal.obj r.1, r.2))
      else jsonNumTok (c :: rest)

/-- Parse the elements of a non-empty JSON array. -/
def jsonArrElems : Nat → List Char → Option (List PyVal × List Char)
  | 0, _ => none
  | fuel + 1, cs =>
    match jsonValCore fuel cs with
    | none => none
    | some (v, r) =>
      match skipWs r with
      | ',' :: r2 => (jsonArrElems fuel r2).map (fun es => (v :: es.1, es.2))
      | ']' :: r2 => some ([v], r2)
      | _ => none

/-- Parse the fields of a non-empty JSON object. -/
def jsonObjFields : Nat → List Char → Option (List (String × PyVal) × List Char)
  | 0, _ => none
  | fuel + 1, cs =>
    match skipWs cs with
    | '"' :: r =>
      match jsonStrChars (2 * r.length + 2) r with
      | none => none
      | some (kc, r2) =>
        match skipWs r2 with
        | ':' :: r3 =>
          match jsonValCore fuel r3 with
          | none => none
          | some (v, r4) =>
            match skipWs r4 with
            | ',' :: r5 => (jsonObjFields fuel r5).map (fun fs => ((String.mk kc, v) :: fs.1, fs.2))
            | '}' :: r5 => some ([(String.mk kc, v)], r5)
            | _ => none
        | _ => none
    | _ => none

end

/-- `json.loads`: parse a complete JSON document (returns `none` where the
Python call raises `json.JSONDecodeError`). -/
def json_loads (s : String) : Option PyVal :=
  match jsonValCore (s.length + 2) s.data with
  | some (v, rest) => if (skipWs rest).isEmpty then some v else none
  | none => none

/-! ### `base64.b64encode` / `base64.b64decode` -/

/-- The base64 alphabet, by 6-bit value. -/
def b64CharOf (n : Nat) : Char :=
  if n < 26 then Char.ofNat (65 + n)
  else if n < 52 then Char.ofNat (97 + (n - 26))
  else if n < 62 then Char.ofNat (48 + (n - 52))
  else if n = 62 then '+'
  else '/'

/-- Index of a character in the base64 alphabet. -/
def b64Index (c : Char) : Option Nat :=
  if 'A' ≤ c ∧ c ≤ 'Z' then some (c.toNat - 65)
  else if 'a' ≤ c ∧ c ≤ 'z' then some (26 + (c.toNat - 97))
  else if '0' ≤ c ∧ c ≤ '9' then some (52 + (c.toNat - 48))
  else if c = '+' then some 62
  else if c = '/' then some 63
  else none

/-- `base64.b64encode` on a byte list (bytes are `Nat` values below 256). -/
def b64EncodeBytes : List Nat → List Char
  | [] => []
  | [a] => [b64CharOf (a / 4), b64CharOf (a % 4 * 16), '=', '=']
  | [a, b] => [b64CharOf (a / 4), b64CharOf (a % 4 * 16 + b / 16), b64CharOf (b % 16 * 4), '=']
  | a :: b :: c :: rest =>
    b64CharOf (a / 4) :: b64CharOf (a % 4 * 16 + b / 16) ::
      b64CharOf (b % 16 * 4 + c / 64) :: b64CharOf (c % 64) :: b64EncodeBytes rest

/-- `base64.b64encode(...).decode()`: the base64 text of a byte list. -/
def b64Encode (bs : List Nat) : String :=
  String.mk (b64EncodeBytes bs)

/-- Emit the three bytes of a full quad of 6-bit values. -/
def emit4 (q : List Nat) : List Nat :=
  match q with
  | [a, b, c, d] => [a * 4 + b / 16, b % 16 * 16 + c / 4, c % 4 * 64 + d]
  | _ => []

/-- Emit the bytes of a partial quad terminated by padding. -/
def flushQuad (q : List Nat) : List Nat :=
  match q with
  | [a, b] => [a * 4 + b / 16]
  | [a, b, c] => [a * 4 + b / 16, b % 16 * 16 + c / 4]
  | _ => []

/-- CPython lenient base64 scan (`binascii`, non-strict): non-alphabet
characters are skipped; a padding character with the quad at position two
or three terminates the input once `quad_pos + pads >= 4` (so two pads are
needed at position two, one at position three; a pad at position zero or
one is ignored and leaves the pad count alone); every data character
resets the pad count; leftover quad state at the end raises
(`Incorrect padding`). -/
def b64DecodeLoop : List Nat → Nat → List Char → Option (List Nat)
  | quad, _, [] => if quad.isEmpty then some [] else none
  | quad, pads, c :: cs =>
    if c = '=' then
      if 2 ≤ quad.length then
        if 4 ≤ quad.length + pads + 1 then some (flushQuad quad)
        else b64DecodeLoop quad (pads + 1) cs
      else b64DecodeLoop quad pads cs
    else
      match b64Index c with
      | some v =>
        if quad.length = 3 then
          (b64DecodeLoop [] 0 cs).map (fun rest => emit4 (quad ++ [v]) ++ rest)
        else b64DecodeLoop (quad ++ [v]) 0 cs
      | none => b64DecodeLoop quad pads cs

/-- `base64.b64decode` on a `str` argument: the string must be ASCII
(`s.encode("ascii")` raises otherwise), then the lenient scan runs.
`none` models the call raising. -/
def pyB64Decode (s : String) : Option (List Nat) :=
  if s.data.any (fun c => 128 ≤ c.toNat) then none
  else b64DecodeLoop [] 0 s.data

/-- `base64.b64decode` applied to an arbitrary value: non-string arguments
raise `TypeError` (modelled as `none`, since the caller maps any failure of
this step to the same 400 response). -/
def pyB64DecodeVal : PyVal → Option (List Nat)
  | .str s => pyB64Decode s
  | _ => none

/-! ### Events, responses, dates, the store interface -/

/-- Inbound event, per the invocation shape of the spec. -/
structure Event where
  httpMethod : Option String := none
  body : Option String := none
  queryStringParameters : Option (List (String × String)) := none

/-- `{"statusCode": ..., "body": <JSON string>}`. -/
structure Response where
  statusCode : Int
  body : String

/-- The `response` helper of `handler.py`:
`{"statusCode": status_code, "body": json.dumps(body_dict)}`. -/
def response (statusCode : Int) (bodyDict : List (String × PyVal)) : Response :=
  { statusCode := statusCode, body := pyDumps (.obj bodyDict) }

/-- A calendar date. -/
structure Date where
  year : Nat
  month : Nat
  day : Nat

/-- Zero-pad a number to a width. -/
def padNum (width : Nat) (n : Nat) : String :=
  let s := toString n
  if s.length < width then String.mk (List.replicate (width - s.length) '0') ++ s else s

/-- `date.isoformat()`: `YYYY-MM-DD`. -/
def dateIso (d : Date) : String :=
  padNum 4 d.year ++ "-" ++ padNum 2 d.month ++ "-" ++ padNum 2 d.day

/-- The wall clock at the moment of the handler invocation.  `handler.py`
calls `datetime.now()`, which yields the system-local time; the UTC date is
carried alongside so that statements can compare the two. -/
structure Clock where
  utcDate : Date
  localDate : Date

/-- A DynamoDB metadata record, exactly the item shape written by
`upload_image`: `{"id": ..., "file_name": ..., "metadata": ..., "created_at": ...}`. -/
structure Item where
  id : String
  file_name : PyVal
  metadata : PyVal
  created_at : String

/-- Serialize an item back to a JSON value (for the list response). -/
def itemToPy (it : Item) : PyVal :=
  .obj [("id", .str it.id), ("file_name", it.file_name),
        ("metadata", it.metadata), ("created_at", .str it.created_at)]

/-- A `boto3.dynamodb.conditions` filter expression, as built by
`list_images`: attribute-equality conditions combined with `&`. -/
inductive FilterExpr where
  | eqAttr (name : String) (value : String)
  | and (l r : FilterExpr)

/-- Attribute projection of an item. -/
def attrVal (it : Item) (name : String) : Option PyVal :=
  if name = "id" then some (.str it.id)
  else if name = "file_name" then some it.file_name
  else if name = "metadata" then some it.metadata
  else if name = "created_at" then some (.str it.created_at)
  else none

/-- DynamoDB equality of an attribute value against a string. -/
def pyValEqStr : PyVal → String → Bool
  | .str s, v => s == v
  | _, _ => false

/-- Evaluate a filter expression on an item (as the store does). -/
def evalFilter : FilterExpr → Item → Bool
  | .eqAttr name v, it =>
    match attrVal it name with
    | some pv => pyValEqStr pv v
    | none => false
  | .and f g, it => evalFilter f it && evalFilter g it

/-- The store calls made by the handlers.  Each call may raise.  Keys are
`PyVal` because the handlers pass request-derived values straight through
(`boto3` rejects non-string keys on its own).  The state type is abstract so
that failing stores can be injected, as the repository tests do. -/
structure StoreOps (σ : Type) where
  s3Put : σ → PyVal → List Nat → Except Exc σ
  s3GetObj : σ → PyVal → Except Exc (List Nat)
  s3Delete : σ → PyVal → Except Exc σ
  ddbPutItem : σ → Item → Except Exc σ
  ddbGetItem : σ → PyVal → Except Exc (Option Item)
  ddbDeleteItem : σ → PyVal → Except Exc σ
  ddbScan : σ → Option FilterExpr → Except Exc (List Item)

/-! ### The four handlers

Each `*Body` function is the `try` block: it returns `.error (e, st)` where
the Python code would let exception `e` reach the handler's `except`
clauses, carrying the store state at that point (writes made before the
exception persist).  The wrapper applies the handler's `except` clauses. -/

/-- The `try` block of `upload_image` (`handler.py` lines 47–82). -/
def uploadBody {σ : Type} (ops : StoreOps σ) (clock : Clock) (uid : String)
    (st : σ) (event : Event) : Except (Exc × σ) (Response × σ) :=
  if event.httpMethod ≠ some "POST" then
    .ok (response 405 [("error", .str "Method not allowed, use POST")], st)
  else
    match event.body with
    | none => .ok (response 400 [("error", .str "Request body is missing")], st)
    | some bodyStr =>
      if bodyStr = "" then .ok (response 400 [("error", .str "Request body is missing")], st)
      else
        match json_loads bodyStr with
        | none => .ok (response 400 [("error", .str "Invalid JSON in body")], st)
        | some bodyVal =>
          match pyDictGet bodyVal "file_name" with
          | .error e => .error (e, st)
          | .ok fileName =>
            match pyDictGet bodyVal "file_content" with
            | .error e => .error (e, st)
            | .ok fileContent =>
              match pyDictGetD bodyVal "metadata" (.obj []) with
              | .error e => .error (e, st)
              | .ok metadata =>
                if !pyTruthy fileName || !pyTruthy fileContent then
                  .ok (response 400 [("error", .str "file_name and file_content required")], st)
                else
                  match pyB64DecodeVal fileContent with
                  | none => .ok (response 400 [("error", .str "Invalid base64 for file_content")], st)
                  | some fileBytes =>
                    match ops.s3Put st fileName fileBytes with
                    | .error e => .error (e, st)
                    | .ok st1 =>
                      match ops.ddbPutItem st1
                          { id := uid, file_name := fileName, metadata := metadata,
                            created_at := dateIso clock.localDate } with
                      | .error e => .error (e, st1)
                      | .ok st2 =>
                        .ok (response 200 [("message", .str "Image uploaded"),
                          ("file_name", fileName), ("id", .str uid)], st2)

/-- `upload_image` (`handler.py` lines 31–85): its only `except` clause maps
every exception to 500 with `str(e)`. -/
def upload_image {σ : Type} (ops : StoreOps σ) (clock : Clock) (uid : String)
    (st : σ) (event : Event) : Response × σ :=
  match uploadBody ops clock uid st event with
  | .ok r => r
  | .error (e, stE) => (response 500 [("error", .str e.msg)], stE)

/-- The `try` block of `list_images` (`handler.py` lines 99–118). -/
def listBody {σ : Type} (ops : StoreOps σ) (st : σ) (event : Event) :
    Except (Exc × σ) (Response × σ) :=
  let params := event.queryStringParameters.getD []
  let fileNameFilter := params.lookup "file_name"
  let createdAtFilter := params.lookup "created_at"
  let fe1 : Option FilterExpr :=
    match fileNameFilter with
    | some v => if v = "" then none else some (.eqAttr "file_name" v)
    | none => none
  let filterExpr : Option FilterExpr :=
    match createdAtFilter with
    | some v =>
      if v = "" then fe1
      else
        match fe1 with
        | none => some (.eqAttr "created_at" v)
        | some f => some (.and f (.eqAttr "created_at" v))
    | none => fe1
  match ops.ddbScan st filterExpr with
  | .error e => .error (e, st)
  | .ok items => .ok (response 200 [("images", .arr (items.map itemToPy))], st)

/-- `list_images` (`handler.py` lines 88–121): its only `except` clause maps
every exception to 500 with `str(e)`. -/
def list_images {σ : Type} (ops : StoreOps σ) (st : σ) (event : Event) :
    Response × σ :=
  match listBody ops st event with
  | .ok r => r
  | .error (e, stE) => (response 500 [("error", .str e.msg)], stE)

/-- The `try` block of `get_image` (`handler.py` lines 136–154). -/
def getBody {σ : Type} (ops : StoreOps σ) (st : σ) (event : Event) :
    Except (Exc × σ) (Response × σ) :=
  let params := event.queryStringParameters.getD []
  match params.lookup "id" with
  | none => .ok (response 400 [("error", .str "Missing id in query parameters")], st)
  | some imageId =>
    if imageId = "" then .ok (response 400 [("error", .str "Missing id in query parameters")], st)
    else
      match ops.ddbGetItem st (.str imageId) with
      | .error e => .error (e, st)
      | .ok none => .ok (response 404 [("error", .str "Image not found")], st)
      | .ok (some item) =>
        match ops.s3GetObj st item.file_name with
        | .error e => .error (e, st)
        | .ok bytes =>
          .ok (response 200 [("id", .str imageId), ("file_name", item.file_name),
            ("file_content", .str (b64Encode bytes)), ("created_at", .str item.created_at)], st)

/-- `get_image` (`handler.py` lines 123–159): `except ClientError` maps to
404 with `str(e)`, `except Exception` maps to 500 with `str(e)`. -/
def get_image {σ : Type} (ops : StoreOps σ) (st : σ) (event : Event) :
    Response × σ :=
  match getBody ops st event with
  | .ok r => r
  | .error (.clientError m, stE) => (response 404 [("error", .str m)], stE)
  | .error (.otherError m, stE) => (response 500 [("error", .str m)], stE)

/-- The `try` block of `delete_image` (`handler.py` lines 178–205). -/
def deleteBody {σ : Type} (ops : StoreOps σ) (st : σ) (event : Event) :
    Except (Exc × σ) (Response × σ) :=
  if event.httpMethod ≠ some "DELETE" then
    .ok (response 405 [("error", .str "Method not allowed, use DELETE")], st)
  else
    match event.body with
    | none => .ok (response 400 [("error", .str "Request body missing")], st)
    | some bodyStr =>
      if bodyStr = "" then .ok (response 400 [("error", .str "Request body missing")], st)
      else
        match json_loads bodyStr with
        | none => .ok (response 400 [("error", .str "Invalid JSON in body")], st)
        | some bodyVal =>
          match pyDictGet bodyVal "id" with
          | .error e => .error (e, st)
          | .ok imageIdVal =>
            if !pyTruthy imageIdVal then
              .ok (response 400 [("error", .str "Missing id in body")], st)
            else
              match ops.ddbGetItem st imageIdVal with
              | .error e => .error (e, st)
              | .ok none => .ok (response 404 [("error", .str "Image not found")], st)
              | .ok (some item) =>
                match ops.s3Delete st item.file_name with
                | .error e => .error (e, st)
                | .ok st1 =>
                  match ops.ddbDeleteItem st1 imageIdVal with
                  | .error e => .error (e, st1)
                  | .ok st2 =>
                    .ok (response 200 [("message", .str "Deleted successfully"),
                      ("id", imageIdVal)], st2)

/-- `delete_image` (`handler.py` lines 162–210): `except ClientError` maps to
404 with `str(e)`, `except Exception` maps to 500 with `str(e)`. -/
def delete_image {σ : Type} (ops : StoreOps σ) (st : σ) (event : Event) :
    Response × σ :=
  match deleteBody ops st event with
  | .ok r => r
  | .error (.clientError m, stE) => (response 404 [("error", .str m)], stE)
  | .error (.otherError m, stE) => (response 500 [("error", .str m)], stE)

/-! ### The faithful store -/

/-- The two backing stores: S3 objects keyed by file name and the DynamoDB
table rows. -/
structure Storage where
  s3Objects : List (String × List Nat)
  ddbItems : List Item

/-- Faithful store semantics: assoc-list key-value stores.  `boto3` rejects
non-string S3 keys client-side (`ParamValidationError`, not a `ClientError`)
and DynamoDB rejects wrongly-typed primary keys server-side
(`ValidationException`, a `ClientError`).  S3 `get_object` on a missing key
raises `NoSuchKey`, a `ClientError`; deletes of missing keys succeed. -/
def realStore : StoreOps Storage where
  s3Put st key bytes :=
    match key with
    | .str k => .ok { st with s3Objects := st.s3Objects.filter (fun p => !(p.1 == k)) ++ [(k, bytes)] }
    | _ => .error (.otherError "Parameter validation failed: invalid type for parameter Key")
  s3GetObj st key :=
    match key with
    | .str k =>
      match st.s3Objects.lookup k with
      | some bytes => .ok bytes
      | none => .error (.clientError "An error occurred (NoSuchKey) when calling the GetObject operation")
    | _ => .error (.otherError "Parameter validation failed: invalid type for parameter Key")
  s3Delete st key :=
    match key with
    | .str k => .ok { st with s3Objects := st.s3Objects.filter (fun p => !(p.1 == k)) }
    | _ => .error (.otherError "Parameter validation failed: invalid type for parameter Key")
  ddbPutItem st it :=
    .ok { st with ddbItems := st.ddbItems.filter (fun j => !(j.id == it.id)) ++ [it] }
  ddbGetItem st key :=
    match key with
    | .str k => .ok (st.ddbItems.find? (fun j => j.id == k))
    | _ => .error (.clientError "An error occurred (ValidationException) when calling the GetItem operation")
  ddbDeleteItem st key :=
    match key with
    | .str k => .ok { st with ddbItems := st.ddbItems.filter (fun j => !(j.id == k)) }
    | _ => .error (.clientError "An error occurred (ValidationException) when calling the DeleteItem operation")
  ddbScan st filt :=
    .ok (match filt with
      | none => st.ddbItems
      | some f => st.ddbItems.filter (evalFilter f))

/-! ### Base64 lemmas: decoding inverts encoding -/

/-- The alphabet map inverts the 6-bit value map. -/
theorem b64Index_charOf : ∀ n, n < 64 → b64Index (b64CharOf n) = some n := by decide

/-- Alphabet characters are not the padding character. -/
theorem b64CharOf_ne_pad : ∀ n, n < 64 → b64CharOf n ≠ '=' := by decide

/-- Alphabet characters are ASCII. -/
theorem b64CharOf_ascii : ∀ n, n < 64 → (b64CharOf n).toNat < 128 := by decide

/-- One alphabet character extends a quad of fewer than three values and
resets the pad count. -/
theorem b64DecodeLoop_alpha (v : Nat) (hv : v < 64) (quad : List Nat) (pads : Nat)
    (hq : quad.length ≠ 3) (cs : List Char) :
    b64DecodeLoop quad pads (b64CharOf v :: cs) = b64DecodeLoop (quad ++ [v]) 0 cs := by
  have h1 := b64CharOf_ne_pad v hv
  have h2 := b64Index_charOf v hv
  simp [b64DecodeLoop, h1, h2, hq]

/-- One alphabet character completes a quad of three values. -/
theorem b64DecodeLoop_alpha3 (v : Nat) (hv : v < 64) (quad : List Nat) (pads : Nat)
    (hq : quad.length = 3) (cs : List Char) :
    b64DecodeLoop quad pads (b64CharOf v :: cs) =
      (b64DecodeLoop [] 0 cs).map (fun rest => emit4 (quad ++ [v]) ++ rest) := by
  have h1 := b64CharOf_ne_pad v hv
  have h2 := b64Index_charOf v hv
  simp [b64DecodeLoop, h1, h2, hq]

/-- Padding with the quad at position three flushes and stops at once. -/
theorem b64DecodeLoop_pad3 (quad : List Nat) (pads : Nat) (hq : quad.length = 3)
    (cs : List Char) :
    b64DecodeLoop quad pads ('=' :: cs) = some (flushQuad quad) := by
  have h1 : 2 ≤ quad.length := by omega
  have h2 : 4 ≤ quad.length + pads + 1 := by omega
  simp [b64DecodeLoop, h1, h2]

/-- A first padding character with the quad at position two only counts. -/
theorem b64DecodeLoop_pad2_first (quad : List Nat) (hq : quad.length = 2)
    (cs : List Char) :
    b64DecodeLoop quad 0 ('=' :: cs) = b64DecodeLoop quad 1 cs := by
  have h1 : 2 ≤ quad.length := by omega
  have h2 : ¬ 4 ≤ quad.length + 0 + 1 := by omega
  simp [b64DecodeLoop, h1, h2]

/-- A second padding character with the quad at position two flushes. -/
theorem b64DecodeLoop_pad2_done (quad : List Nat) (pads : Nat) (hq : quad.length = 2)
    (hp : 1 ≤ pads) (cs : List Char) :
    b64DecodeLoop quad pads ('=' :: cs) = some (flushQuad quad) := by
  have h1 : 2 ≤ quad.length := by omega
  have h2 : 4 ≤ quad.length + pads + 1 := by omega
  simp [b64DecodeLoop, h1, h2]

/-- The lenient scan inverts the encoder on byte lists. -/
theorem b64DecodeLoop_encode : ∀ bs : List Nat, (∀ b ∈ bs, b < 256) →
    b64DecodeLoop [] 0 (b64EncodeBytes bs) = some bs := by
  intro bs
  induction bs using b64EncodeBytes.induct with
  | case1 =>
    intro _
    simp [b64EncodeBytes, b64DecodeLoop]
  | case2 a =>
    intro h
    have ha : a < 256 := h a (by simp)
    rw [show b64EncodeBytes [a] =
      [b64CharOf (a / 4), b64CharOf (a % 4 * 16), '=', '='] from rfl]
    rw [b64DecodeLoop_alpha (a / 4) (by omega) [] 0 (by simp)]
    simp only [List.nil_append]
    rw [b64DecodeLoop_alpha (a % 4 * 16) (by omega) [a / 4] 0 (by simp)]
    simp only [List.cons_append, List.nil_append]
    rw [b64DecodeLoop_pad2_first [a / 4, a % 4 * 16] (by simp)]
    rw [b64DecodeLoop_pad2_done [a / 4, a % 4 * 16] 1 (by simp) (by omega)]
    simp [flushQuad]
    omega
  | case3 a b =>
    intro h
    have ha : a < 256 := h a (by simp)
    have hb : b < 256 := h b (by simp)
    rw [show b64EncodeBytes [a, b] =
      [b64CharOf (a / 4), b64CharOf (a % 4 * 16 + b / 16), b64CharOf (b % 16 * 4), '='] from rfl]
    rw [b64DecodeLoop_alpha (a / 4) (by omega) [] 0 (by simp)]
    simp only [List.nil_append]
    rw [b64DecodeLoop_alpha (a % 4 * 16 + b / 16) (by omega) [a / 4] 0 (by simp)]
    simp only [List.cons_append, List.nil_append]
    rw [b64DecodeLoop_alpha (b % 16 * 4) (by omega) [a / 4, a % 4 * 16 + b / 16] 0 (by simp)]
    simp only [List.cons_append, List.nil_append]
    rw [b64DecodeLoop_pad3 [a / 4, a % 4 * 16 + b / 16, b % 16 * 4] 0 (by simp)]
    simp [flushQuad]
    constructor <;> omega
  | case4 a b c rest ih =>
    intro h
    have ha : a < 256 := h a (by simp)
    have hb : b < 256 := h b (by simp)
    have hc : c < 256 := h c (by simp)
    have hrest : ∀ x ∈ rest, x < 256 := fun x hx => h x (by simp [hx])
    rw [show b64EncodeBytes (a :: b :: c :: rest) =
      b64CharOf (a / 4) :: b64CharOf (a % 4 * 16 + b / 16) ::
        b64CharOf (b % 16 * 4 + c / 64) :: b64CharOf (c % 64) :: b64EncodeBytes rest from rfl]
    rw [b64DecodeLoop_alpha (a / 4) (by omega) [] 0 (by simp)]
    simp only [List.nil_append]
    rw [b64DecodeLoop_alpha (a % 4 * 16 + b / 16) (by omega) [a / 4] 0 (by simp)]
    simp only [List.cons_append, List.nil_append]
    rw [b64DecodeLoop_alpha (b % 16 * 4 + c / 64) (by omega) [a / 4, a % 4 * 16 + b / 16] 0
      (by simp)]
    simp only [List.cons_append, List.nil_append]
    rw [b64DecodeLoop_alpha3 (c % 64) (by omega)
      [a / 4, a % 4 * 16 + b / 16, b % 16 * 4 + c / 64] 0 (by simp)]
    rw [ih hrest]
    simp [emit4]
    refine ⟨?_, ?_, ?_⟩ <;> omega

/-- Encoded output is ASCII. -/
theorem b64EncodeBytes_ascii : ∀ bs : List Nat, (∀ b ∈ bs, b < 256) →
    ∀ c ∈ b64EncodeBytes bs, c.toNat < 128 := by
  intro bs
  induction bs using b64EncodeBytes.induct with
  | case1 =>
    intro _ c hc
    simp [b64EncodeBytes] at hc
  | case2 a =>
    intro h c hc
    have ha : a < 256 := h a (by simp)
    simp only [b64EncodeBytes, List.mem_cons, List.not_mem_nil, or_false] at hc
    rcases hc with hc | hc | hc | hc <;> subst hc
    · exact b64CharOf_ascii _ (by omega)
    · exact b64CharOf_ascii _ (by omega)
    · decide
    · decide
  | case3 a b =>
    intro h c hc
    have ha : a < 256 := h a (by simp)
    have hb : b < 256 := h b (by simp)
    simp only [b64EncodeBytes, List.mem_cons, List.not_mem_nil, or_false] at hc
    rcases hc with hc | hc | hc | hc <;> subst hc
    · exact b64CharOf_ascii _ (by omega)
    · exact b64CharOf_ascii _ (by omega)
    · exact b64CharOf_ascii _ (by omega)
    · decide
  | case4 a b c rest ih =>
    intro h x hx
    have ha : a < 256 := h a (by simp)
    have hb : b < 256 := h b (by simp)
    have hc : c < 256 := h c (by simp)
    have hrest : ∀ y ∈ rest, y < 256 := fun y hy => h y (by simp [hy])
    simp only [b64EncodeBytes, List.mem_cons] at hx
    rcases hx with hx | hx | hx | hx | hx
    · subst hx; exact b64CharOf_ascii _ (by omega)
    · subst hx; exact b64CharOf_ascii _ (by omega)
    · subst hx; exact b64CharOf_ascii _ (by omega)
    · subst hx; exact b64CharOf_ascii _ (by omega)
    · exact ih hrest x hx

/-- `base64.b64decode` inverts `base64.b64encode` on byte lists. -/
theorem pyB64Decode_encode (bs : List Nat) (h : ∀ b ∈ bs, b < 256) :
    pyB64Decode (b64Encode bs) = some bs := by
  unfold pyB64Decode b64Encode
  have hascii : ((String.mk (b64EncodeBytes bs)).data.any fun c => 128 ≤ c.toNat) = false := by
    simp only [String.data]
    rw [List.any_eq_false]
    intro c hc
    have := b64EncodeBytes_ascii bs h c hc
    simp
    omega
  rw [hascii]
  simp only [Bool.false_eq_true, if_false, String.data]
  exact b64DecodeLoop_encode bs h

/-- Encoding a non-empty byte list yields a non-empty string. -/
theorem b64Encode_ne_empty (bs : List Nat) (h : bs ≠ []) : b64Encode bs ≠ "" := by
  match bs, h with
  | [a], _ => simp [b64Encode, b64EncodeBytes, String.ext_iff]
  | [a, b], _ => simp [b64Encode, b64EncodeBytes, String.ext_iff]
  | a :: b :: c :: rest, _ => simp [b64Encode, b64EncodeBytes, String.ext_iff]

/-! ### Assoc-list store lemmas -/

/-- Looking up a key right after the overwrite-put of that key. -/
theorem lookup_filterOut_append {β : Type} (l : List (String × β)) (k : String) (v : β) :
    (l.filter (fun p => !(p.1 == k)) ++ [(k, v)]).lookup k = some v := by
  induction l with
  | nil => simp [List.lookup]
  | cons p l ih =>
    obtain ⟨pk, pv⟩ := p
    by_cases hp : pk = k
    · subst hp
      simpa using ih
    · have hk : (k == pk) = false := by simp [Ne.symm hp]
      have hp2 : (!(pk == k)) = true := by simp [hp]
      simp only [List.filter_cons, hp2, if_true, List.cons_append, List.lookup, hk]
      exact ih

/-- Finding an item by id right after the overwrite-put of that id. -/
theorem find?_filterOut_append (l : List Item) (uid : String) (it : Item)
    (hit : it.id = uid) :
    (l.filter (fun j => !(j.id == uid)) ++ [it]).find? (fun j => j.id == uid) = some it := by
  induction l with
  | nil => simp [List.find?, hit]
  | cons j l ih =>
    by_cases hj : j.id = uid
    · have hj2 : (!(j.id == uid)) = false := by simp [hj]
      simp only [List.filter_cons, hj2, Bool.false_eq_true, if_false]
      exact ih
    · have hj2 : (!(j.id == uid)) = true := by simp [hj]
      have hj3 : (j.id == uid) = false := by simp [hj]
      simp only [List.filter_cons, hj2, if_true, List.cons_append, List.find?, hj3]
      exact ih

/-! ### Concrete fixtures used by witnesses and counterexamples -/

/-- The empty store. -/
def stEmpty : Storage := ⟨[], []⟩

/-- A clock on which the UTC calendar date and the local calendar date
differ (e.g. a host west of Greenwich shortly after midnight UTC). -/
def clock0 : Clock := ⟨⟨2025, 10, 13⟩, ⟨2025, 10, 12⟩⟩

/-- `json_loads` of the empty string fails. -/
theorem json_loads_empty : json_loads "" = none := rfl

/-- `body.get(k)` raises `AttributeError` on every non-dict value. -/
theorem pyDictGet_nonobj (v : PyVal) (hno : ∀ fs, v ≠ PyVal.obj fs) (k : String) :
    pyDictGet v k = .error (.otherError
      ("AttributeError: \x27" ++ pyTypeName v ++ "\x27 object has no attribute \x27get\x27")) := by
  cases v <;> first | rfl | exact absurd rfl (hno _)

/-! ### C4 -/

/-- C4: for every event in which the `id` query parameter is missing
(in particular when `queryStringParameters` is absent or the empty
mapping), `get_image` returns status 400, touching no store. -/
theorem get_missing_id_returns_400 {σ : Type} (ops : StoreOps σ) (st : σ) (ev : Event)
    (h : (ev.queryStringParameters.getD []).lookup "id" = none) :
    get_image ops st ev =
      (response 400 [("error", .str "Missing id in query parameters")], st) := by
  simp only [get_image, getBody, h]

/-- C4 witness: an event with no `queryStringParameters` at all. -/
theorem get_missing_id_returns_400_witness :
    get_image realStore stEmpty { queryStringParameters := none } =
      (response 400 [("error", .str "Missing id in query parameters")], stEmpty) :=
  get_missing_id_returns_400 realStore stEmpty { queryStringParameters := none } rfl

/-! ### C2 -/

/-- C8: an upload that passes the method, body, JSON and required-field
checks but whose `file_content` does not decode as base64 yields 400 and
leaves the store state untouched, whatever the store implementation. -/
theorem upload_invalid_base64_no_write {σ : Type} (ops : StoreOps σ) (clock : Clock)
    (uid : String) (st : σ) (ev : Event) (s : String) (kvs : List (String × PyVal))
    (fn fc : PyVal)
    (hm : ev.httpMethod = some "POST") (hb : ev.body = some s)
    (hj : json_loads s = some (.obj kvs))
    (hfn : pyDictGet (.obj kvs) "file_name" = .ok fn)
    (hfc : pyDictGet (.obj kvs) "file_content" = .ok fc)
    (htfn : pyTruthy fn = true) (htfc : pyTruthy fc = true)
    (hdec : pyB64DecodeVal fc = none) :
    upload_image ops clock uid st ev =
      (response 400 [("error", .str "Invalid base64 for file_content")], st) := by
  have hs : s ≠ "" := by
    intro hs; subst hs; rw [json_loads_empty] at hj; exact Option.noConfusion hj
  simp [upload_image, uploadBody, pyDictGetD, hm, hb, hj, hfn, hfc, htfn, htfc, hdec, hs]

/-- C8 witness: `"aG="` ends with the quad at position two and a single
padding character, where CPython demands a second one, so the decode
raises `Incorrect padding` and the upload returns 400 without a write. -/
theorem upload_invalid_base64_no_write_witness :
    upload_image realStore clock0 "uid-1" stEmpty
      { httpMethod := some "POST",
        body := some "\x7b\"file_name\": \"a.png\", \"file_content\": \"aG=\"\x7d" } =
      (response 400 [("error", .str "Invalid base64 for file_content")], stEmpty) :=
  upload_invalid_base64_no_write realStore clock0 "uid-1" stEmpty _
    "\x7b\"file_name\": \"a.png\", \"file_content\": \"aG=\"\x7d"
    [("file_name", .str "a.png"), ("file_content", .str "aG=")]
    (.str "a.png") (.str "aG=") rfl rfl rfl rfl rfl rfl rfl rfl

/-! ### C10 -/

/-- C10 (implicit): when the body parses as JSON but is not an object, the
attribute lookup `body.get(...)` raises into the catch-all, so
`upload_image` and `delete_image` return 500 (not a 400) and no store state
changes. -/
theorem nonobject_body_returns_500 {σ : Type} (ops : StoreOps σ) (clock : Clock)
    (uid : String) (st : σ) (evU evD : Event) (s : String) (v : PyVal)
    (hmU : evU.httpMethod = some "POST") (hbU : evU.body = some s)
    (hmD : evD.httpMethod = some "DELETE") (hbD : evD.body = some s)
    (hj : json_loads s = some v) (hno : ∀ fs, v ≠ PyVal.obj fs) :
    ((upload_image ops clock uid st evU).1.statusCode = 500
      ∧ (upload_image ops clock uid st evU).2 = st)
    ∧ ((delete_image ops st evD).1.statusCode = 500
      ∧ (delete_image ops st evD).2 = st) := by
  have hs : s ≠ "" := by
    intro hs; subst hs; rw [json_loads_empty] at hj; exact Option.noConfusion hj
  have hget := pyDictGet_nonobj v hno
  constructor
  · constructor <;>
      simp [upload_image, uploadBody, hmU, hbU, hj, hs, hget, Exc.msg, response]
  · constructor <;>
      simp [delete_image, deleteBody, hmD, hbD, hj, hs, hget, Exc.msg, response]

/-- C10 witness: the JSON array body `"[1]"`. -/
theorem nonobject_body_returns_500_witness :
    ((upload_image realStore clock0 "uid-1" stEmpty
      { httpMethod := some "POST", body := some "[1]" }).1.statusCode = 500
      ∧ (upload_image realStore clock0 "uid-1" stEmpty
      { httpMethod := some "POST", body := some "[1]" }).2 = stEmpty)
    ∧ ((delete_image realStore stEmpty
      { httpMethod := some "DELETE", body := some "[1]" }).1.statusCode = 500
      ∧ (delete_image realStore stEmpty
      { httpMethod := some "DELETE", body := some "[1]" }).2 = stEmpty) :=
  nonobject_body_returns_500 realStore clock0 "uid-1" stEmpty _ _ "[1]"
    (.arr [.int 1]) rfl rfl rfl rfl rfl (fun _ h => PyVal.noConfusion h)

/-! ### C1 -/

/-- C1: a valid upload of `file_name = F`, `file_content = b64Encode B`
succeeds with status 200 returning the generated id, and an immediate get
by that id (no intervening upload or delete) returns status 200 with the
same `file_content` and `file_name`. -/
theorem upload_get_round_trip (clock : Clock) (uid : String) (st : Storage)
    (ev : Event) (s : String) (kvs : List (String × PyVal)) (F : String) (B : List Nat)
    (hm : ev.httpMethod = some "POST") (hb : ev.body = some s)
    (hj : json_loads s = some (.obj kvs))
    (hfn : pyDictGet (.obj kvs) "file_name" = .ok (.str F))
    (hfc : pyDictGet (.obj kvs) "file_content" = .ok (.str (b64Encode B)))
    (hF : F ≠ "") (hB : B ≠ []) (hbytes : ∀ b ∈ B, b < 256) (huid : uid ≠ "") :
    ∃ st1 : Storage,
      upload_image realStore clock uid st ev =
        (response 200 [("message", .str "Image uploaded"), ("file_name", .str F),
          ("id", .str uid)], st1)
      ∧ get_image realStore st1 { queryStringParameters := some [("id", uid)] } =
        (response 200 [("id", .str uid), ("file_name", .str F),
          ("file_content", .str (b64Encode B)),
          ("created_at", .str (dateIso clock.localDate))], st1) := by
  have hs : s ≠ "" := by
    intro hs; subst hs; rw [json_loads_empty] at hj; exact Option.noConfusion hj
  have htfn : pyTruthy (.str F) = true := by simp [pyTruthy, hF]
  have htfc : pyTruthy (.str (b64Encode B)) = true := by
    simp [pyTruthy, b64Encode_ne_empty B hB]
  have hdec : pyB64DecodeVal (.str (b64Encode B)) = some B := by
    simp [pyB64DecodeVal, pyB64Decode_encode B hbytes]
  refine ⟨{ s3Objects := st.s3Objects.filter (fun p => !(p.1 == F)) ++ [(F, B)],
            ddbItems := st.ddbItems.filter (fun j => !(j.id == uid)) ++
              [{ id := uid, file_name := .str F,
                 metadata := (kvs.reverse.lookup "metadata").getD (.obj []),
                 created_at := dateIso clock.localDate }] }, ?_, ?_⟩
  · simp [upload_image, uploadBody, pyDictGetD, realStore, hm, hb, hj, hfn, hfc, hs,
      htfn, htfc, hdec]
  · have hfind := find?_filterOut_append st.ddbItems uid
      { id := uid, file_name := .str F,
        metadata := (kvs.reverse.lookup "metadata").getD (.obj []),
        created_at := dateIso clock.localDate } rfl
    have hlook := lookup_filterOut_append st.s3Objects F B
    simp [get_image, getBody, realStore, huid, hfind, hlook]

/-- C1 witness: uploading `"hi"` (bytes `[104, 105]`) as `a.png` and
getting it back. -/
theorem upload_get_round_trip_witness :
    ∃ st1 : Storage,
      upload_image realStore clock0 "uid-1" stEmpty
        { httpMethod := some "POST",
          body := some "\x7b\"file_name\": \"a.png\", \"file_content\": \"aGk=\"\x7d" } =
        (response 200 [("message", .str "Image uploaded"), ("file_name", .str "a.png"),
          ("id", .str "uid-1")], st1)
      ∧ get_image realStore st1 { queryStringParameters := some [("id", "uid-1")] } =
        (response 200 [("id", .str "uid-1"), ("file_name", .str "a.png"),
          ("file_content", .str (b64Encode [104, 105])),
          ("created_at", .str (dateIso clock0.localDate))], st1) :=
  upload_get_round_trip clock0 "uid-1" stEmpty _
    "\x7b\"file_name\": \"a.png\", \"file_content\": \"aGk=\"\x7d"
    [("file_name", .str "a.png"), ("file_content", .str "aGk=")] "a.png" [104, 105]
    rfl rfl rfl rfl rfl (by decide) (by decide) (by decide) (by decide)

/-! ### C3 -/

/-- DynamoDB string equality holds only against the string attribute value. -/
theorem pyValEqStr_eq {pv : PyVal} {v : String} (h : pyValEqStr pv v = true) :
    pv = .str v := by
  cases pv <;> simp_all [pyValEqStr]

/-- An item passing the `file_name` equality filter has that `file_name`. -/
theorem evalFilter_eq_file_name {w : String} {it : Item}
    (h : evalFilter (.eqAttr "file_name" w) it = true) : it.file_name = .str w := by
  simp only [evalFilter, attrVal] at h
  simp at h
  exact pyValEqStr_eq h

/-- An item passing the `created_at` equality filter has that `created_at`. -/
theorem evalFilter_eq_created_at {v : String} {it : Item}
    (h : evalFilter (.eqAttr "created_at" v) it = true) : it.created_at = v := by
  simp only [evalFilter, attrVal] at h
  simp at h
  have := pyValEqStr_eq h
  exact PyVal.str.inj this

/-- C3: `list_images` scans the table; the supplied non-empty `file_name`
and `created_at` query filters are applied by the store as an AND of
exact-equality conditions, so every returned record is a stored record
satisfying every supplied filter, and with no (non-empty) filter supplied
every stored record is returned; the result is a 200 whose body has the
single key `images`. -/
theorem list_images_filtering (st : Storage) (ev : Event) :
    ∃ returned : List Item,
      list_images realStore st ev =
        (response 200 [("images", .arr (returned.map itemToPy))], st)
      ∧ (∀ it ∈ returned, it ∈ st.ddbItems)
      ∧ (∀ it ∈ returned, ∀ v,
          (ev.queryStringParameters.getD []).lookup "file_name" = some v → v ≠ "" →
          it.file_name = .str v)
      ∧ (∀ it ∈ returned, ∀ v,
          (ev.queryStringParameters.getD []).lookup "created_at" = some v → v ≠ "" →
          it.created_at = v)
      ∧ ((∀ v, (ev.queryStringParameters.getD []).lookup "file_name" = some v → v = "") →
        (∀ v, (ev.queryStringParameters.getD []).lookup "created_at" = some v → v = "") →
        returned = st.ddbItems) := by
  cases hfn : (ev.queryStringParameters.getD []).lookup "file_name" with
  | none =>
    cases hca : (ev.queryStringParameters.getD []).lookup "created_at" with
    | none =>
      refine ⟨st.ddbItems, ?_, fun it hit => hit, ?_, ?_, fun _ _ => rfl⟩
      · simp [list_images, listBody, realStore, hfn, hca]
      · intro it _ v hv; exact Option.noConfusion hv
      · intro it _ v hv; exact Option.noConfusion hv
    | some v =>
      by_cases hv : v = ""
      · subst hv
        refine ⟨st.ddbItems, ?_, fun it hit => hit, ?_, ?_, fun _ _ => rfl⟩
        · simp [list_images, listBody, realStore, hfn, hca]
        · intro it _ u hu; exact Option.noConfusion hu
        · intro it _ u hu hne; exact absurd (Option.some.inj hu).symm hne
      · refine ⟨st.ddbItems.filter (evalFilter (.eqAttr "created_at" v)), ?_, ?_, ?_, ?_, ?_⟩
        · simp [list_images, listBody, realStore, hfn, hca, hv]
        · intro it hit; exact (List.mem_filter.mp hit).1
        · intro it _ u hu; exact Option.noConfusion hu
        · intro it hit u hu _
          rw [← Option.some.inj hu]
          exact evalFilter_eq_created_at (List.mem_filter.mp hit).2
        · intro _ hall; exact absurd (hall v rfl) hv
  | some w =>
    by_cases hw : w = ""
    · subst hw
      cases hca : (ev.queryStringParameters.getD []).lookup "created_at" with
      | none =>
        refine ⟨st.ddbItems, ?_, fun it hit => hit, ?_, ?_, fun _ _ => rfl⟩
        · simp [list_images, listBody, realStore, hfn, hca]
        · intro it _ u hu hne; exact absurd (Option.some.inj hu).symm hne
        · intro it _ u hu; exact Option.noConfusion hu
      | some v =>
        by_cases hv : v = ""
        · subst hv
          refine ⟨st.ddbItems, ?_, fun it hit => hit, ?_, ?_, fun _ _ => rfl⟩
          · simp [list_images, listBody, realStore, hfn, hca]
          · intro it _ u hu hne; exact absurd (Option.some.inj hu).symm hne
          · intro it _ u hu hne; exact absurd (Option.some.inj hu).symm hne
        · refine ⟨st.ddbItems.filter (evalFilter (.eqAttr "created_at" v)), ?_, ?_, ?_, ?_, ?_⟩
          · simp [list_images, listBody, realStore, hfn, hca, hv]
          · intro it hit; exact (List.mem_filter.mp hit).1
          · intro it _ u hu hne; exact absurd (Option.some.inj hu).symm hne
          · intro it hit u hu _
            rw [← Option.some.inj hu]
            exact evalFilter_eq_created_at (List.mem_filter.mp hit).2
          · intro _ hall; exact absurd (hall v rfl) hv
    · cases hca : (ev.queryStringParameters.getD []).lookup "created_at" with
      | none =>
        refine ⟨st.ddbItems.filter (evalFilter (.eqAttr "file_name" w)), ?_, ?_, ?_, ?_, ?_⟩
        · simp [list_images, listBody, realStore, hfn, hca, hw]
        · intro it hit; exact (List.mem_filter.mp hit).1
        · intro it hit u hu _
          rw [← Option.some.inj hu]
          exact evalFilter_eq_file_name (List.mem_filter.mp hit).2
        · intro it _ u hu; exact Option.noConfusion hu
        · intro hall _; exact absurd (hall w rfl) hw
      | some v =>
        by_cases hv : v = ""
        · subst hv
          refine ⟨st.ddbItems.filter (evalFilter (.eqAttr "file_name" w)), ?_, ?_, ?_, ?_, ?_⟩
          · simp [list_images, listBody, realStore, hfn, hca, hw]
          · intro it hit; exact (List.mem_filter.mp hit).1
          · intro it hit u hu _
            rw [← Option.some.inj hu]
            exact evalFilter_eq_file_name (List.mem_filter.mp hit).2
          · intro it _ u hu hne; exact absurd (Option.some.inj hu).symm hne
          · intro hall _; exact absurd (hall w rfl) hw
        · refine ⟨st.ddbItems.filter
            (evalFilter (.and (.eqAttr "file_name" w) (.eqAttr "created_at" v))), ?_, ?_, ?_, ?_, ?_⟩
          · simp [list_images, listBody, realStore, hfn, hca, hw, hv]
          · intro it hit; exact (List.mem_filter.mp hit).1
          · intro it hit u hu _
            rw [← Option.some.inj hu]
            have h2 := (List.mem_filter.mp hit).2
            rw [show evalFilter (.and (.eqAttr "file_name" w) (.eqAttr "created_at" v)) it
              = (evalFilter (.eqAttr "file_name" w) it && evalFilter (.eqAttr "created_at" v) it)
              from rfl] at h2
            exact evalFilter_eq_file_name ((Bool.and_eq_true _ _).mp h2).1
          · intro it hit u hu _
            rw [← Option.some.inj hu]
            have h2 := (List.mem_filter.mp hit).2
            rw [show evalFilter (.and (.eqAttr "file_name" w) (.eqAttr "created_at" v)) it
              = (evalFilter (.eqAttr "file_name" w) it && evalFilter (.eqAttr "created_at" v) it)
              from rfl] at h2
            exact evalFilter_eq_created_at ((Bool.and_eq_true _ _).mp h2).2
          · intro hall _; exact absurd (hall w rfl) hw

/-- C3 witness: a two-item table filtered by an exact `file_name`. -/
theorem list_images_filtering_witness :
    ∃ returned : List Item,
      list_images realStore
        ⟨[("a.png", [1])],
         [⟨"u1", .str "a.png", .obj [], "2025-10-12"⟩,
          ⟨"u2", .str "b.png", .obj [], "2025-10-12"⟩]⟩
        { queryStringParameters := some [("file_name", "a.png")] } =
        (response 200 [("images", .arr (returned.map itemToPy))],
         ⟨[("a.png", [1])],
          [⟨"u1", .str "a.png", .obj [], "2025-10-12"⟩,
           ⟨"u2", .str "b.png", .obj [], "2025-10-12"⟩]⟩)
      ∧ (∀ it ∈ returned, it ∈
          [⟨"u1", .str "a.png", .obj [], "2025-10-12"⟩,
           (⟨"u2", .str "b.png", .obj [], "2025-10-12"⟩ : Item)])
      ∧ (∀ it ∈ returned, ∀ v,
          (([("file_name", "a.png")] : List (String × String)).lookup "file_name" = some v) →
          v ≠ "" → it.file_name = .str v)
      ∧ (∀ it ∈ returned, ∀ v,
          (([("file_name", "a.png")] : List (String × String)).lookup "created_at" = some v) →
          v ≠ "" → it.created_at = v)
      ∧ ((∀ v, (([("file_name", "a.png")] : List (String × String)).lookup "file_name" = some v)
            → v = "") →
        (∀ v, (([("file_name", "a.png")] : List (String × String)).lookup "created_at" = some v)
            → v = "") →
        returned =
          [⟨"u1", .str "a.png", .obj [], "2025-10-12"⟩,
           ⟨"u2", .str "b.png", .obj [], "2025-10-12"⟩]) :=
  list_images_filtering
    ⟨[("a.png", [1])],
     [⟨"u1", .str "a.png", .obj [], "2025-10-12"⟩,
      ⟨"u2", .str "b.png", .obj [], "2025-10-12"⟩]⟩
    { queryStringParameters := some [("file_name", "a.png")] }

/-! ### C9 -/

/-- Every normal return of the upload `try` block is a `response`-shaped pair. -/
theorem uploadBody_ok_shape {σ : Type} (ops : StoreOps σ) (clock : Clock) (uid : String)
    (st : σ) (ev : Event) (r : Response × σ)
    (h : uploadBody ops clock uid st ev = .ok r) :
    ∃ c d st1, r = (response c d, st1) := by
  simp only [uploadBody] at h
  repeat' split at h
  all_goals
    first
      | exact ⟨_, _, _, (Except.ok.inj h).symm⟩
      | exact Except.noConfusion h

/-- Every normal return of the list `try` block is a `response`-shaped pair. -/
theorem listBody_ok_shape {σ : Type} (ops : StoreOps σ) (st : σ) (ev : Event)
    (r : Response × σ) (h : listBody ops st ev = .ok r) :
    ∃ c d st1, r = (response c d, st1) := by
  simp only [listBody] at h
  repeat' split at h
  all_goals
    first
      | exact ⟨_, _, _, (Except.ok.inj h).symm⟩
      | exact Except.noConfusion h

/-- Every normal return of the get `try` block is a `response`-shaped pair. -/
theorem getBody_ok_shape {σ : Type} (ops : StoreOps σ) (st : σ) (ev : Event)
    (r : Response × σ) (h : getBody ops st ev = .ok r) :
    ∃ c d st1, r = (response c d, st1) := by
  simp only [getBody] at h
  repeat' split at h
  all_goals
    first
      | exact ⟨_, _, _, (Except.ok.inj h).symm⟩
      | exact Except.noConfusion h

/-- Every normal return of the delete `try` block is a `response`-shaped pair. -/
theorem deleteBody_ok_shape {σ : Type} (ops : StoreOps σ) (st : σ) (ev : Event)
    (r : Response × σ) (h : deleteBody ops st ev = .ok r) :
    ∃ c d st1, r = (response c d, st1) := by
  simp only [deleteBody] at h
  repeat' split at h
  all_goals
    first
      | exact ⟨_, _, _, (Except.ok.inj h).symm⟩
      | exact Except.noConfusion h

/-- C9: whatever the event and whatever the store calls do (including
raising), each of the four handlers returns an envelope
`{statusCode: int, body: json.dumps(<dict>)}`; no exception escapes. -/
theorem handlers_return_envelope {σ : Type} (ops : StoreOps σ) (clock : Clock)
    (uid : String) (st : σ) (ev : Event) :
    (∃ c d st1, upload_image ops clock uid st ev = (response c d, st1))
    ∧ (∃ c d st1, list_images ops st ev = (response c d, st1))
    ∧ (∃ c d st1, get_image ops st ev = (response c d, st1))
    ∧ (∃ c d st1, delete_image ops st ev = (response c d, st1)) := by
  refine ⟨?_, ?_, ?_, ?_⟩
  · cases h : uploadBody ops clock uid st ev with
    | ok r =>
      obtain ⟨c, d, st1, hr⟩ := uploadBody_ok_shape ops clock uid st ev r h
      exact ⟨c, d, st1, by simp only [upload_image, h, hr]⟩
    | error e =>
      obtain ⟨e1, stE⟩ := e
      exact ⟨500, [("error", .str e1.msg)], stE, by simp only [upload_image, h]⟩
  · cases h : listBody ops st ev with
    | ok r =>
      obtain ⟨c, d, st1, hr⟩ := listBody_ok_shape ops st ev r h
      exact ⟨c, d, st1, by simp only [list_images, h, hr]⟩
    | error e =>
      obtain ⟨e1, stE⟩ := e
      exact ⟨500, [("error", .str e1.msg)], stE, by simp only [list_images, h]⟩
  · cases h : getBody ops st ev with
    | ok r =>
      obtain ⟨c, d, st1, hr⟩ := getBody_ok_shape ops st ev r h
      exact ⟨c, d, st1, by simp only [get_image, h, hr]⟩
    | error e =>
      obtain ⟨e1, stE⟩ := e
      cases e1 with
      | clientError m => exact ⟨404, [("error", .str m)], stE, by simp only [get_image, h]⟩
      | otherError m => exact ⟨500, [("error", .str m)], stE, by simp only [get_image, h]⟩
  · cases h : deleteBody ops st ev with
    | ok r =>
      obtain ⟨c, d, st1, hr⟩ := deleteBody_ok_shape ops st ev r h
      exact ⟨c, d, st1, by simp only [delete_image, h, hr]⟩
    | error e =>
      obtain ⟨e1, stE⟩ := e
      cases e1 with
      | clientError m => exact ⟨404, [("error", .str m)], stE, by simp only [delete_image, h]⟩
      | otherError m => exact ⟨500, [("error", .str m)], stE, by simp only [delete_image, h]⟩

/-- C9 witness: the envelope shape at a concrete event and store. -/
theorem handlers_return_envelope_witness :
    (∃ c d st1, upload_image realStore clock0 "uid-1" stEmpty
      { httpMethod := some "POST" } = (response c d, st1))
    ∧ (∃ c d st1, list_images realStore stEmpty
      { httpMethod := some "POST" } = (response c d, st1))
    ∧ (∃ c d st1, get_image realStore stEmpty
      { httpMethod := some "POST" } = (response c d, st1))
    ∧ (∃ c d st1, delete_image realStore stEmpty
      { httpMethod := some "POST" } = (response c d, st1)) :=
  handlers_return_envelope realStore clock0 "uid-1" stEmpty { httpMethod := some "POST" }

/-! ### C5 and C6 -/

/-- A stored metadata record used by concrete error-path scenarios. -/
def itemA : Item := ⟨"i1", .str "a.png", .obj [], "2025-10-12"⟩

/-- A store whose blob delete raises a `ClientError` (an S3 store-layer
failure); lookups succeed. -/
def opsS3DeleteClientError : StoreOps Unit where
  s3Put _ _ _ := .ok ()
  s3GetObj _ _ := .ok []
  s3Delete _ _ := .error (.clientError
    "An error occurred (InternalError) when calling the DeleteObject operation")
  ddbPutItem _ _ := .ok ()
  ddbGetItem _ _ := .ok (some itemA)
  ddbDeleteItem _ _ := .ok ()
  ddbScan _ _ := .ok []

/-- A store whose metadata record delete raises a non-`ClientError`. -/
def opsDdbDeleteOtherError : StoreOps Unit where
  s3Put _ _ _ := .ok ()
  s3GetObj _ _ := .ok []
  s3Delete _ _ := .ok ()
  ddbPutItem _ _ := .ok ()
  ddbGetItem _ _ := .ok (some itemA)
  ddbDeleteItem _ _ := .error (.otherError "DynamoDB failed")
  ddbScan _ _ := .ok []

/-- A store whose metadata point lookup raises a `ClientError` (a DynamoDB
store-layer failure). -/
def opsDdbGetClientError : StoreOps Unit where
  s3Put _ _ _ := .ok ()
  s3GetObj _ _ := .ok []
  s3Delete _ _ := .ok ()
  ddbPutItem _ _ := .ok ()
  ddbGetItem _ _ := .error (.clientError
    "An error occurred (ProvisionedThroughputExceededException) when calling the GetItem operation")
  ddbDeleteItem _ _ := .ok ()
  ddbScan _ _ := .ok []

/-- A well-formed delete request for id `i1`. -/
def evDelI1 : Event :=
  { httpMethod := some "DELETE", body := some "\x7b\"id\": \"i1\"\x7d" }

/-- C5 counterexample: a store-layer `ClientError` raised by the Object
Store blob delete (step 6) is mapped to 404, not to the 500 the claim
assigns to exceptions outside the lookup step. -/
theorem delete_blob_client_error_maps_to_404 :
    delete_image opsS3DeleteClientError () evDelI1 =
      (response 404 [("error", .str
        "An error occurred (InternalError) when calling the DeleteObject operation")], ())
    ∧ (delete_image opsS3DeleteClientError () evDelI1).1.statusCode ≠ 500 := by
  constructor
  · rfl
  · intro hc
    rw [show delete_image opsS3DeleteClientError () evDelI1 =
      (response 404 [("error", .str
        "An error occurred (InternalError) when calling the DeleteObject operation")], ())
      from rfl] at hc
    exact absurd hc (by decide)

/-- C5 (amended): in `delete_image`, once the request passes validation the
status of a failing store call is decided by the exception class, not the
step: a `ClientError` from the metadata lookup, the blob delete, or the
record delete maps to 404, and any other exception from those steps maps
to 500 (with the state reached so far). -/
theorem delete_error_mapping {σ : Type} (ops : StoreOps σ) (st : σ) (ev : Event)
    (s : String) (bodyVal idv : PyVal)
    (hm : ev.httpMethod = some "DELETE") (hb : ev.body = some s)
    (hj : json_loads s = some bodyVal)
    (hid : pyDictGet bodyVal "id" = .ok idv) (ht : pyTruthy idv = true) :
    (∀ m, ops.ddbGetItem st idv = .error (.clientError m) →
      delete_image ops st ev = (response 404 [("error", .str m)], st))
    ∧ (∀ m, ops.ddbGetItem st idv = .error (.otherError m) →
      delete_image ops st ev = (response 500 [("error", .str m)], st))
    ∧ (∀ item m, ops.ddbGetItem st idv = .ok (some item) →
      ops.s3Delete st item.file_name = .error (.clientError m) →
      delete_image ops st ev = (response 404 [("error", .str m)], st))
    ∧ (∀ item m, ops.ddbGetItem st idv = .ok (some item) →
      ops.s3Delete st item.file_name = .error (.otherError m) →
      delete_image ops st ev = (response 500 [("error", .str m)], st))
    ∧ (∀ item st1 m, ops.ddbGetItem st idv = .ok (some item) →
      ops.s3Delete st item.file_name = .ok st1 →
      ops.ddbDeleteItem st1 idv = .error (.clientError m) →
      delete_image ops st ev = (response 404 [("error", .str m)], st1))
    ∧ (∀ item st1 m, ops.ddbGetItem st idv = .ok (some item) →
      ops.s3Delete st item.file_name = .ok st1 →
      ops.ddbDeleteItem st1 idv = .error (.otherError m) →
      delete_image ops st ev = (response 500 [("error", .str m)], st1)) := by
  have hs : s ≠ "" := by
    intro hs; subst hs; rw [json_loads_empty] at hj; exact Option.noConfusion hj
  refine ⟨?_, ?_, ?_, ?_, ?_, ?_⟩
  · intro m hg
    simp [delete_image, deleteBody, hm, hb, hj, hid, ht, hs, hg]
  · intro m hg
    simp [delete_image, deleteBody, hm, hb, hj, hid, ht, hs, hg]
  · intro item m hg hd
    simp [delete_image, deleteBody, hm, hb, hj, hid, ht, hs, hg, hd]
  · intro item m hg hd
    simp [delete_image, deleteBody, hm, hb, hj, hid, ht, hs, hg, hd]
  · intro item st1 m hg hd hdd
    simp [delete_image, deleteBody, hm, hb, hj, hid, ht, hs, hg, hd, hdd]
  · intro item st1 m hg hd hdd
    simp [delete_image, deleteBody, hm, hb, hj, hid, ht, hs, hg, hd, hdd]

/-- C5 witness: a non-`ClientError` raised by the metadata record delete
(step 7) maps to 500. -/
theorem delete_error_mapping_witness :
    delete_image opsDdbDeleteOtherError () evDelI1 =
      (response 500 [("error", .str "DynamoDB failed")], ()) :=
  (delete_error_mapping opsDdbDeleteOtherError () evDelI1
    "\x7b\"id\": \"i1\"\x7d" (.obj [("id", .str "i1")]) (.str "i1")
    rfl rfl rfl rfl rfl).2.2.2.2.2 itemA () "DynamoDB failed" rfl rfl rfl

/-- C6 counterexample: a store-layer `ClientError` raised by the Metadata
Store point lookup (before the blob fetch) is mapped to 404 by
`get_image`, not to the 500 the claim assigns to it. -/
theorem get_lookup_client_error_maps_to_404 :
    get_image opsDdbGetClientError () { queryStringParameters := some [("id", "i1")] } =
      (response 404 [("error", .str
        "An error occurred (ProvisionedThroughputExceededException) when calling the GetItem operation")], ())
    ∧ (get_image opsDdbGetClientError ()
        { queryStringParameters := some [("id", "i1")] }).1.statusCode ≠ 500 := by
  constructor
  · rfl
  · intro hc
    rw [show get_image opsDdbGetClientError () { queryStringParameters := some [("id", "i1")] } =
      (response 404 [("error", .str
        "An error occurred (ProvisionedThroughputExceededException) when calling the GetItem operation")], ())
      from rfl] at hc
    exact absurd hc (by decide)

/-- C6 (amended): in `get_image`, once a non-empty `id` is supplied the
status of a failing store call is decided by the exception class, not the
stage: a `ClientError` from either the metadata point lookup or the blob
fetch maps to 404, and any other exception from those stages maps to 500. -/
theorem get_error_mapping {σ : Type} (ops : StoreOps σ) (st : σ) (ev : Event)
    (iid : String)
    (hid : (ev.queryStringParameters.getD []).lookup "id" = some iid) (hne : iid ≠ "") :
    (∀ m, ops.ddbGetItem st (.str iid) = .error (.clientError m) →
      get_image ops st ev = (response 404 [("error", .str m)], st))
    ∧ (∀ m, ops.ddbGetItem st (.str iid) = .error (.otherError m) →
      get_image ops st ev = (response 500 [("error", .str m)], st))
    ∧ (∀ item m, ops.ddbGetItem st (.str iid) = .ok (some item) →
      ops.s3GetObj st item.file_name = .error (.clientError m) →
      get_image ops st ev = (response 404 [("error", .str m)], st))
    ∧ (∀ item m, ops.ddbGetItem st (.str iid) = .ok (some item) →
      ops.s3GetObj st item.file_name = .error (.otherError m) →
      get_image ops st ev = (response 500 [("error", .str m)], st)) := by
  refine ⟨?_, ?_, ?_, ?_⟩
  · intro m hg
    simp [get_image, getBody, hid, hne, hg]
  · intro m hg
    simp [get_image, getBody, hid, hne, hg]
  · intro item m hg hf
    simp [get_image, getBody, hid, hne, hg, hf]
  · intro item m hg hf
    simp [get_image, getBody, hid, hne, hg, hf]

/-- C6 witness: with a record present but no blob, the faithful store's
fetch raises `NoSuchKey` (a `ClientError`) and `get_image` returns 404. -/
theorem get_error_mapping_witness :
    get_image realStore ⟨[], [itemA]⟩ { queryStringParameters := some [("id", "i1")] } =
      (response 404 [("error", .str
        "An error occurred (NoSuchKey) when calling the GetObject operation")], ⟨[], [itemA]⟩) :=
  (get_error_mapping realStore ⟨[], [itemA]⟩
    { queryStringParameters := some [("id", "i1")] } "i1" rfl (by decide)).2.2.1
    itemA _ rfl rfl

/-! ### C7 -/

/-- A well-formed upload request (`"aGk="` is base64 of `"hi"`). -/
def evUpA : Event :=
  { httpMethod := some "POST",
    body := some "\x7b\"file_name\": \"a.png\", \"file_content\": \"aGk=\"\x7d" }

/-- C7 counterexample: on a clock where the system-local date (2025-10-12)
differs from the UTC date (2025-10-13), a successful upload writes
`created_at = "2025-10-12"` — the local date produced by
`datetime.now().date().isoformat()` — which is not the current UTC
calendar date. -/
theorem upload_created_at_not_utc :
    (upload_image realStore clock0 "uid-1" stEmpty evUpA).1.statusCode = 200
    ∧ (upload_image realStore clock0 "uid-1" stEmpty evUpA).2.ddbItems.map Item.created_at
      = ["2025-10-12"]
    ∧ dateIso clock0.utcDate = "2025-10-13"
    ∧ ("2025-10-12" : String) ≠ "2025-10-13" :=
  ⟨rfl, rfl, rfl, by decide⟩

/-- C7 (amended): the `created_at` value written by a successful upload is
the current *system-local* calendar date (`datetime.now()` is naive local
time), rendered by `dateIso` as an ISO-8601 `YYYY-MM-DD` string with no
time component; it equals the UTC calendar date only when the two dates
coincide. -/
theorem upload_created_at_local_date (clock : Clock) (uid : String) (st : Storage)
    (ev : Event) (s : String) (kvs : List (String × PyVal)) (F : String) (fc : PyVal)
    (hm : ev.httpMethod = some "POST") (hb : ev.body = some s)
    (hj : json_loads s = some (.obj kvs))
    (hfn : pyDictGet (.obj kvs) "file_name" = .ok (.str F))
    (hfc : pyDictGet (.obj kvs) "file_content" = .ok fc)
    (hF : F ≠ "") (htfc : pyTruthy fc = true)
    (hdec : ∃ bytes, pyB64DecodeVal fc = some bytes) :
    (upload_image realStore clock uid st ev).1.statusCode = 200
    ∧ (upload_image realStore clock uid st ev).2.ddbItems.find? (fun j => j.id == uid)
      = some { id := uid, file_name := .str F,
               metadata := (kvs.reverse.lookup "metadata").getD (.obj []),
               created_at := dateIso clock.localDate } := by
  obtain ⟨bytes, hdec⟩ := hdec
  have hs : s ≠ "" := by
    intro hs; subst hs; rw [json_loads_empty] at hj; exact Option.noConfusion hj
  have htfn : pyTruthy (.str F) = true := by simp [pyTruthy, hF]
  have hfind := find?_filterOut_append st.ddbItems uid
    { id := uid, file_name := .str F,
      metadata := (kvs.reverse.lookup "metadata").getD (.obj []),
      created_at := dateIso clock.localDate } rfl
  constructor
  · simp [upload_image, uploadBody, pyDictGetD, realStore, response, hm, hb, hj, hfn, hfc,
      hs, htfn, htfc, hdec]
  · simp [upload_image, uploadBody, pyDictGetD, realStore, hm, hb, hj, hfn, hfc, hs,
      htfn, htfc, hdec, hfind]

/-- C7 witness: the concrete upload of `evUpA` writes the local date. -/
theorem upload_created_at_local_date_witness :
    (upload_image realStore clock0 "uid-1" stEmpty evUpA).1.statusCode = 200
    ∧ (upload_image realStore clock0 "uid-1" stEmpty evUpA).2.ddbItems.find?
        (fun j => j.id == "uid-1")
      = some { id := "uid-1", file_name := .str "a.png", metadata := .obj [],
               created_at := dateIso clock0.localDate } :=
  upload_created_at_local_date clock0 "uid-1" stEmpty evUpA
    "\x7b\"file_name\": \"a.png\", \"file_content\": \"aGk=\"\x7d"
    [("file_name", .str "a.png"), ("file_content", .str "aGk=")] "a.png" (.str "aGk=")
    rfl rfl rfl rfl rfl (by decide) rfl ⟨[104, 105], rfl⟩
